import Mathlib

/-!
Verification development for the cable-datasheet extraction pipeline
(LAPP / MIL-DTL-22759 / MIL-DTL-27500 regex extractors and the library
merger).  Python floating-point values are modelled as exact rationals;
`math.sqrt` (a float operation with no exact rational counterpart) is
passed as an explicit function parameter to the geometric synthesizer,
and `round(x, 3)` is modelled as rounding to a multiple of 1/1000 with
ties to even.  Python dictionaries with a fixed key set are modelled as
structures; heterogeneous JSON values (library merger) as an inductive
JSON value type.
-/

/-- ASCII whitespace as recognised by Python's `str.strip` / `\s` on the
ASCII inputs produced by the extractors. -/
def isPySpace (c : Char) : Bool :=
  c == ' ' || c == '\t' || c == '\n' || c == '\r' || c == '\x0b' || c == '\x0c'

/-- Python `str.strip()` on a list of characters. -/
def pyStripL (cs : List Char) : List Char :=
  ((cs.dropWhile isPySpace).reverse.dropWhile isPySpace).reverse

/-- Value of a list of decimal digit characters (Python `int` on a digit string). -/
def digitsToNat (cs : List Char) : Nat :=
  cs.foldl (fun a c => a * 10 + (c.toNat - '0'.toNat)) 0

/-- Python `str.isdigit()` for ASCII input: nonempty and all digits. -/
def isDigitStr (s : String) : Bool :=
  !s.toList.isEmpty && s.toList.all (·.isDigit)

/-- Exact value of a decimal literal with integer digits `ip` and fractional
digits `fp`. -/
def decToRat (ip fp : List Char) : ℚ :=
  (digitsToNat ip : ℚ) + (digitsToNat fp : ℚ) / (10 : ℚ) ^ fp.length

/-- Python `float` on a string drawn from the character class `[0-9.]`:
defined exactly when there is at least one digit and at most one dot. -/
def numLitVal? (cs : List Char) : Option ℚ :=
  if cs.all (fun c => c.isDigit || c == '.') && cs.count '.' ≤ 1
      && cs.any (·.isDigit) then
    some (decToRat (cs.takeWhile (· ≠ '.')) ((cs.dropWhile (· ≠ '.')).drop 1))
  else none

/-- Mantissa-plus-exponent part of Python `float` (sign already removed). -/
def pyFloatCore? (cs : List Char) : Option ℚ :=
  let mant := cs.takeWhile (fun c => c.isDigit || c == '.')
  let rest := cs.dropWhile (fun c => c.isDigit || c == '.')
  match numLitVal? mant with
  | none => none
  | some v =>
    match rest with
    | [] => some v
    | 'e' :: r =>
      let esign := match r with | '-' :: _ => false | _ => true
      let r2 := match r with | '-' :: t => t | '+' :: t => t | t => t
      if !r2.isEmpty && r2.all (·.isDigit) then
        some (if esign then v * 10 ^ digitsToNat r2 else v / 10 ^ digitsToNat r2)
      else none
    | 'E' :: r =>
      let esign := match r with | '-' :: _ => false | _ => true
      let r2 := match r with | '-' :: t => t | '+' :: t => t | t => t
      if !r2.isEmpty && r2.all (·.isDigit) then
        some (if esign then v * 10 ^ digitsToNat r2 else v / 10 ^ digitsToNat r2)
      else none
    | _ => none

/-- Python `float` on an already-stripped string (sign handling). -/
def pyFloatSigned? (cs : List Char) : Option ℚ :=
  match cs with
  | '+' :: r => pyFloatCore? r
  | '-' :: r => (pyFloatCore? r).map (fun q => -q)
  | r => pyFloatCore? r

/-- Python `float` on an arbitrary string (finite decimal forms). -/
def pyFloat? (s : String) : Option ℚ :=
  pyFloatSigned? (pyStripL s.toList)

/-- Nearest integer with ties to even (the rounding used by Python `round`). -/
def roundHalfEven (x : ℚ) : ℤ :=
  if x - ⌊x⌋ = 1 / 2 then (if ⌊x⌋ % 2 = 0 then ⌊x⌋ else ⌊x⌋ + 1) else round x

/-- Python `round(x, 3)`. -/
def pyRound3 (x : ℚ) : ℚ :=
  (roundHalfEven (x * 1000) : ℚ) / 1000

/-- ASCII `str.lower()`. -/
def pyLower (s : String) : String :=
  String.mk (s.toList.map Char.toLower)

/-- ASCII `str.upper()`. -/
def pyUpper (s : String) : String :=
  String.mk (s.toList.map Char.toUpper)

/-- Does `pre` occur at the head of the second list? -/
def listStartsWith : List Char → List Char → Bool
  | [], _ => true
  | _ :: _, [] => false
  | p :: ps, c :: cs => p == c && listStartsWith ps cs

/-- Does `needle` occur contiguously anywhere in `hay`? -/
def listHasInfix (needle : List Char) : List Char → Bool
  | [] => needle.isEmpty
  | c :: cs => listStartsWith needle (c :: cs) || listHasInfix needle cs

/-- Python `needle in hay` on strings (contiguous substring test). -/
def pyContains (hay needle : String) : Bool :=
  listHasInfix needle.toList hay.toList

/-- Python `str.strip()` on a string. -/
def pyStrip (s : String) : String :=
  String.mk (pyStripL s.toList)

/-- Worker for `listReplace`: `k` pending characters still to skip after a
match of the old pattern. -/
def listReplaceGo (old new : List Char) : Nat → List Char → List Char
  | _, [] => []
  | Nat.succ k, _ :: cs => listReplaceGo old new k cs
  | 0, c :: cs =>
    if listStartsWith old (c :: cs) then
      new ++ listReplaceGo old new (old.length - 1) cs
    else c :: listReplaceGo old new 0 cs

/-- Python `str.replace(old, new)` for a nonempty `old` (the only form the
sources use): all non-overlapping occurrences, left to right. -/
def listReplace (old new cs : List Char) : List Char :=
  if old.isEmpty then cs else listReplaceGo old new 0 cs

/-- Python `str.replace` on strings. -/
def pyReplace (s old new : String) : String :=
  String.mk (listReplace old.toList new.toList s.toList)

/-- Worker for `listSplitOn` (nonempty separator), with a skip counter and
the reversed current piece. -/
def listSplitOnGo (sep : List Char) : Nat → List Char → List Char → List (List Char)
  | _, [], acc => [acc.reverse]
  | Nat.succ k, _ :: cs, acc => listSplitOnGo sep k cs acc
  | 0, c :: cs, acc =>
    if listStartsWith sep (c :: cs) then
      acc.reverse :: listSplitOnGo sep (sep.length - 1) cs []
    else listSplitOnGo sep 0 cs (c :: acc)

/-- Python `str.split(sep)` for a nonempty separator. -/
def pySplit (s sep : String) : List String :=
  (listSplitOnGo sep.toList 0 s.toList []).map String.mk

/-- Whitespace-separated words of a string (Python `str.split()` with no
arguments: runs of whitespace separate, no empty fields). -/
def wordsOf (cs : List Char) : List (List Char) :=
  let step := fun (p : List (List Char) × List Char) (c : Char) =>
    if isPySpace c then
      (if p.2.isEmpty then p else (p.1 ++ [p.2.reverse], []))
    else (p.1, c :: p.2)
  let r := cs.foldl step ([], [])
  if r.2.isEmpty then r.1 else r.1 ++ [r.2.reverse]

/-- Python `str.split()` (no separator argument). -/
def pySplitWS (s : String) : List String :=
  (wordsOf s.toList).map String.mk

/-- Match a literal (given in lowercase) case-insensitively at the head of a
character list, returning the remainder on success. -/
def matchCI : List Char → List Char → Option (List Char)
  | [], rest => some rest
  | _ :: _, [] => none
  | l :: ls, c :: rest => if c.toLower == l then matchCI ls rest else none

/-- Run an attempt function at every suffix, left to right (the position scan
of `re.search`). -/
def firstSome {α : Type} (f : List Char → Option α) : List Char → Option α
  | [] => none
  | c :: cs =>
    match f (c :: cs) with
    | some r => some r
    | none => firstSome f cs

/-- A dual-unit value `{us, metric}`.  Both keys are always present: the
parser is total into this structure, which is the embedded form of the
"never raise, never omit a key" contract. -/
structure UnitPair where
  us : ℚ
  metric : ℚ
deriving DecidableEq

/-- The anchored pattern `([0-9.]+)\s*\(([0-9.]+)\)` of `re.match` in
`parse_unit_pair`: both captured groups, or failure.  The character classes
of consecutive pieces are disjoint, so greedy matching needs no backtracking. -/
def matchUnitPair? (cs : List Char) : Option (List Char × List Char) :=
  let g1 := cs.takeWhile (fun c => c.isDigit || c == '.')
  let r1 := cs.dropWhile (fun c => c.isDigit || c == '.')
  if g1.isEmpty then none
  else
    match r1.dropWhile isPySpace with
    | '(' :: r2 =>
      let g2 := r2.takeWhile (fun c => c.isDigit || c == '.')
      let r3 := r2.dropWhile (fun c => c.isDigit || c == '.')
      if g2.isEmpty then none
      else
        match r3 with
        | ')' :: _ => some (g1, g2)
        | _ => none
    | _ => none

namespace M22759

/-- `parse_unit_pair` of MIL-DTL-22759Regex.py: `'X.XX (Y.YY)'` to a
`UnitPair`; a bare number is treated as the US value with metric `0.0`;
anything else yields `{0.0, 0.0}`. -/
def parse_unit_pair (data_str : String) : UnitPair :=
  let cs := pyStripL data_str.toList
  match matchUnitPair? cs with
  | some (g1, g2) =>
    match numLitVal? g1, numLitVal? g2 with
    | some a, some b => ⟨a, b⟩
    | _, _ => ⟨0, 0⟩
  | none =>
    match pyFloatSigned? cs with
    | some a => ⟨a, 0⟩
    | none => ⟨0, 0⟩

end M22759

namespace M27500

/-- `parse_unit_pair` of MIL-DTL-27500Regex.py: as the M22759 variant but a
bare number falls back to `{us, us / 25.4}`. -/
def parse_unit_pair (data_str : String) : UnitPair :=
  let cs := pyStripL data_str.toList
  match matchUnitPair? cs with
  | some (g1, g2) =>
    match numLitVal? g1, numLitVal? g2 with
    | some a, some b => ⟨a, b⟩
    | _, _ => ⟨0, 0⟩
  | none =>
    match pyFloatSigned? cs with
    | some a => ⟨a, a / (127 / 5)⟩
    | none => ⟨0, 0⟩

end M27500

namespace LAPP

/-- `AWG_TO_DIAMETER_MM` of LAPPRegex.py. -/
def AWG_TO_DIAMETER_MM : List (String × ℚ) :=
  [("10", 2588/1000), ("12", 2052/1000), ("14", 1628/1000), ("16", 1291/1000),
   ("18", 1024/1000), ("20", 812/1000), ("22", 644/1000), ("24", 511/1000),
   ("26", 405/1000), ("28", 321/1000), ("30", 255/1000), ("KCMIL", 5)]

/-- `AWG_TO_INSULATION_MM` of LAPPRegex.py. -/
def AWG_TO_INSULATION_MM : List (String × ℚ) :=
  [("10", 7/10), ("12", 6/10), ("14", 5/10), ("16", 45/100),
   ("18", 4/10), ("20", 35/100), ("22", 25/100), ("24", 2/10),
   ("26", 18/100), ("28", 15/100), ("30", 15/100), ("KCMIL", 1)]

/-- `COLOR_4PAIR` of LAPPRegex.py. -/
def COLOR_4PAIR : List (String × String) :=
  [("Blue", "White/Blue"), ("Orange", "White/Orange"),
   ("Green", "White/Green"), ("Brown", "White/Brown")]

/-- `COLOR_MULTICONDUCTOR` of LAPPRegex.py. -/
def COLOR_MULTICONDUCTOR : List String :=
  ["Black", "White", "Red", "Green", "Yellow", "Brown", "Blue", "Gray",
   "Pink", "Violet", "Orange", "Turquoise", "Black/White", "Red/White",
   "Blue/White", "Black/Red", "White/Red", "Green/Red"]

/-- The style name compared against in `normalize_cable_properties` and
`transform_to_core_format`. -/
def olflexStyle : String := "ÖLFLEX® Power & Control Style"

/-- A cleaned LAPP row (the dictionary built by `clean_match_row`): only the
keys read by the normalizer and the transformer are modelled; keys that a
family's header list does not produce are `none`. -/
structure LappRow where
  partNumber : Option String
  matchedStyle : String
  construction : Option String
  conductorDescription : Option String
  conductorCountField : Option String
  nominalODmm : Option String
  approvals : Option String
  jacketMaterial : Option String
  jacketColor : Option String
deriving DecidableEq

/-- A row after `normalize_cable_properties`: the original keys plus
`AWG/Size`, `Pairing Configuration` and `Total Conductors` (an `int` or the
`'N/A'` sentinel, modelled as `Option Nat`). -/
structure NormalizedLapp where
  row : LappRow
  awgSize : String
  pairingConfig : String
  totalConductors : Option Nat
deriving DecidableEq

/-- Python truthiness of an optional string (`None` and `''` are falsy). -/
def strTruthy : Option String → Bool
  | none => false
  | some s => !(s == "")

/-- `row_data.get('Construction') or row_data.get('Conductor Description')`
followed by the `if parse_field:` truthiness test. -/
def parseFieldOf (row : LappRow) : Option String :=
  if strTruthy row.construction then row.construction
  else if strTruthy row.conductorDescription then row.conductorDescription
  else none

/-- One attempt of `(\d+)\s*(?:pr|pair|x\s*\d+x)` (IGNORECASE) at a fixed
start position; yields `int(group(1))`.  The character classes of adjacent
greedy pieces are disjoint, so maximal munch is exact. -/
def matchPairAt (cs : List Char) : Option Nat :=
  let ds := cs.takeWhile (·.isDigit)
  let r1 := cs.dropWhile (·.isDigit)
  if ds.isEmpty then none
  else
    let r2 := r1.dropWhile isPySpace
    match matchCI ['p', 'r'] r2 with
    | some _ => some (digitsToNat ds)
    | none =>
      match matchCI ['p', 'a', 'i', 'r'] r2 with
      | some _ => some (digitsToNat ds)
      | none =>
        match matchCI ['x'] r2 with
        | some r3 =>
          let r4 := r3.dropWhile isPySpace
          let ds2 := r4.takeWhile (·.isDigit)
          let r5 := r4.dropWhile (·.isDigit)
          if ds2.isEmpty then none
          else
            match matchCI ['x'] r5 with
            | some _ => some (digitsToNat ds)
            | none => none
        | none => none

/-- `re.search` of the pairing pattern (`match_pair`). -/
def searchPairing (s : String) : Option Nat :=
  firstSome matchPairAt s.toList

/-- One attempt of `(\d+)[cC](?:\/[gG])?` at a fixed start position. -/
def matchCondAt (cs : List Char) : Option Nat :=
  let ds := cs.takeWhile (·.isDigit)
  let r1 := cs.dropWhile (·.isDigit)
  if ds.isEmpty then none
  else
    match r1 with
    | 'c' :: _ => some (digitsToNat ds)
    | 'C' :: _ => some (digitsToNat ds)
    | _ => none

/-- `re.search` of the conductor-count pattern (`match_cond`). -/
def searchCond (s : String) : Option Nat :=
  firstSome matchCondAt s.toList

/-- Candidate `(consumed, rest)` splits for the optional group
`(?:/\d{1,2})?`, in regex preference order (take 2 digits, take 1, skip). -/
def awgOptSplits (r1 : List Char) : List (List Char × List Char) :=
  match r1 with
  | '/' :: rest =>
    let ds := rest.takeWhile (·.isDigit)
    (if ds.length ≥ 2 then [('/' :: rest.take 2, rest.drop 2)] else []) ++
      (if ds.length ≥ 1 then [('/' :: rest.take 1, rest.drop 1)] else []) ++
      [([], r1)]
  | _ => [([], r1)]

/-- Tail `\s*AWG` (IGNORECASE) of the first AWG alternative; returns the full
matched text. -/
def awgTail (pre r2 : List Char) : Option (List Char) :=
  let ws := r2.takeWhile isPySpace
  let r3 := r2.dropWhile isPySpace
  match matchCI ['a', 'w', 'g'] r3 with
  | some _ => some (pre ++ ws ++ r3.take 3)
  | none => none

/-- One attempt of the alternative `\d{1,2}(?:/\d{1,2})?\s*AWG` at a fixed
start position (backtracking over the counted and optional pieces in regex
preference order). -/
def matchAwgAlt1 (cs : List Char) : Option (List Char) :=
  [2, 1].findSome? fun k =>
    let d1 := cs.take k
    if d1.length == k && d1.all (·.isDigit) then
      (awgOptSplits (cs.drop k)).findSome? fun p => awgTail (d1 ++ p.1) p.2
    else none

/-- One attempt of the alternative `\d+\s*KCMIL` at a fixed start position. -/
def matchAwgAlt2 (cs : List Char) : Option (List Char) :=
  let ds := cs.takeWhile (·.isDigit)
  let r1 := cs.dropWhile (·.isDigit)
  if ds.isEmpty then none
  else
    let ws := r1.takeWhile isPySpace
    let r2 := r1.dropWhile isPySpace
    match matchCI ['k', 'c', 'm', 'i', 'l'] r2 with
    | some _ => some (ds ++ ws ++ r2.take 5)
    | none => none

/-- One attempt of `(\d{1,2}(?:/\d{1,2})?\s*AWG|\d+\s*KCMIL)` (IGNORECASE)
at a fixed start position. -/
def matchAwgAt (cs : List Char) : Option (List Char) :=
  match matchAwgAlt1 cs with
  | some r => some r
  | none => matchAwgAlt2 cs

/-- `re.search` of the AWG/size pattern (`match_awg`), with the trailing
`.strip()` applied to the captured text. -/
def searchAwg (s : String) : Option String :=
  (firstSome matchAwgAt s.toList).map (fun l => pyStrip (String.mk l))

/-- One attempt of `(\d{1,2})\s*AWG\s*/\s*pr` (IGNORECASE) at a fixed start
position; yields the captured digits. -/
def matchPairAwgAt (cs : List Char) : Option (List Char) :=
  [2, 1].findSome? fun k =>
    let d1 := cs.take k
    if d1.length == k && d1.all (·.isDigit) then
      let r1 := (cs.drop k).dropWhile isPySpace
      match matchCI ['a', 'w', 'g'] r1 with
      | some r2 =>
        match r2.dropWhile isPySpace with
        | '/' :: r4 =>
          match matchCI ['p', 'r'] (r4.dropWhile isPySpace) with
          | some _ => some d1
          | none => none
        | _ => none
      | none => none
    else none

/-- `re.search` of the pair-gauge pattern (`match_pair_awg`). -/
def searchPairAwg (s : String) : Option String :=
  (firstSome matchPairAwgAt s.toList).map String.mk

/-- The final AWG/Size cleanup: uppercase and drop the literal `AWG` when
present. -/
def cleanupAwg (a : String) : String :=
  if pyContains (pyUpper a) "AWG" then pyStrip (pyReplace (pyUpper a) "AWG" "")
  else a

/-- `normalize_cable_properties` of LAPPRegex.py. -/
def normalize_cable_properties (row : LappRow) (style_name : String) :
    NormalizedLapp :=
  if style_name = olflexStyle then
    let countField := pyStrip (pyReplace (row.conductorCountField.getD "N/A") "KCMIL" "")
    if isDigitStr countField then
      let n := digitsToNat countField.toList
      ⟨row, cleanupAwg "N/A", if n > 1 then toString n ++ "C" else "N/A", some n⟩
    else ⟨row, cleanupAwg "N/A", "N/A", none⟩
  else
    match parseFieldOf row with
    | none => ⟨row, cleanupAwg "N/A", "N/A", none⟩
    | some pf =>
      let awg0 := match searchAwg pf with
        | some a => a
        | none => "N/A"
      let awg1 := match searchPairAwg pf with
        | some d => d ++ " AWG"
        | none => awg0
      let pctc : String × Option Nat :=
        match searchPairing pf with
        | some np => (toString np ++ " pr", some (np * 2))
        | none =>
          match searchCond pf with
          | some m => (toString m ++ "C", some m)
          | none => ("N/A", none)
      let pctc2 := if pyContains style_name "DeviceNet" then ("2P + 1T", some 5)
        else pctc
      ⟨row, cleanupAwg awg1, pctc2.1, pctc2.2⟩

end LAPP

/-- Python `str.endswith` on strings. -/
def pyEndsWith (s t : String) : Bool :=
  listStartsWith t.toList.reverse s.toList.reverse

/-- One insulated conductor position of the final record (`Cores` entry). -/
structure CoreRec where
  coreId : String
  conductorDiameter : ℚ
  insulationThickness : ℚ
  insulationColor : String
  gauge : String
  conductorMaterial : String
deriving DecidableEq

namespace LAPP

/-- `dim_map.get(awg, dim_map['22'])` — the `get_dim_mm` helper and the
default-gauge lookups of `transform_to_core_format`. -/
def get_dim_mm (awg : String) (dimMap : List (String × ℚ)) : ℚ :=
  match dimMap.lookup awg with
  | some v => v
  | none => (dimMap.lookup "22").getD 0

/-- `str(row.get('AWG/Size', '22')).replace(' ', '').split('/')[0].strip()`. -/
def baseAwgStr (nr : NormalizedLapp) : String :=
  pyStrip ((pySplit (pyReplace nr.awgSize " " "") "/").headD "")

/-- The fixed DeviceNet five-core layout `core_specs` (gauge, colour). -/
def deviceNetSpecs : List (String × String) :=
  [("22", "Blue"), ("22", "White/Blue"), ("18", "Red"), ("18", "Black"),
   ("22", "Drain")]

/-- `[c for pair in COLOR_4PAIR for c in pair]`. -/
def color4PairFlat : List String :=
  (COLOR_4PAIR.map (fun p => [p.1, p.2])).flatten

/-- The per-core list `cores_data` built by `transform_to_core_format` for a
row with validated total conductor count `n`. -/
def coresData (nr : NormalizedLapp) (n : Nat) : List CoreRec :=
  if nr.row.matchedStyle = "DeviceNet Style" then
    ((deviceNetSpecs.take n).enum).map fun ic =>
      ⟨toString (ic.1 + 1), get_dim_mm ic.2.1 AWG_TO_DIAMETER_MM,
        get_dim_mm ic.2.1 AWG_TO_INSULATION_MM, ic.2.2, ic.2.1, "Copper"⟩
  else
    let s := baseAwgStr nr
    let base_awg := if isDigitStr s || s == "KCMIL" then s else "22"
    let cond := get_dim_mm base_awg AWG_TO_DIAMETER_MM
    let ins := get_dim_mm base_awg AWG_TO_INSULATION_MM
    let colors := if pyEndsWith nr.pairingConfig "pr" && n % 2 == 0 then
        color4PairFlat
      else COLOR_MULTICONDUCTOR
    (List.range n).map fun i =>
      ⟨toString (i + 1), cond, ins, colors.getD (i % colors.length) "",
        base_awg, "Copper"⟩

/-- The shield-detection heuristic `has_shield` (shield marker letter in the
part number, or `braid` in the approvals text). -/
def hasShieldOf (nr : NormalizedLapp) : Bool :=
  let pn := pyReplace (nr.row.partNumber.getD "UNKNOWN") "*" ""
  pyContains (pyUpper pn) "C" || pyContains (pyUpper pn) "CY" ||
    pyContains (pyLower (nr.row.approvals.getD "")) "braid"

/-- The specified-outer-diameter parse including the documented cleanup: for
ÖLFLEX rows with several space-separated numbers glued into the field, the
first whitespace-separated token; then all spaces removed; then `float`. -/
def parseOD? (nr : NormalizedLapp) : Option ℚ :=
  let raw := nr.row.nominalODmm.getD "0"
  let raw2 := if nr.row.matchedStyle = olflexStyle then
      let ps := pySplitWS raw
      if ps.length > 1 then ps.headD raw else raw
    else raw
  pyFloat? (pyReplace raw2 " " "")

/-- A core's outer diameter: conductor diameter plus twice the insulation
thickness. -/
def coreOD (c : CoreRec) : ℚ :=
  c.conductorDiameter + 2 * c.insulationThickness

/-- `max([...])` over the per-core outer diameters (0 for no cores, a case
the caller guards). -/
def maxCoreOD (cores : List CoreRec) : ℚ :=
  match cores.map coreOD with
  | [] => 0
  | x :: xs => xs.foldl max x

/-- `inner_bundle_diam`: the packing approximation of the pre-jacket bundle
diameter.  `sq` stands for the float function `math.sqrt`. -/
def bundleDiam (sq : ℚ → ℚ) (cores : List CoreRec) (n : Nat) : ℚ :=
  if cores.isEmpty then 0
  else if n ≤ 4 then maxCoreOD cores * 2
  else maxCoreOD cores * (1 + sq n / 2)

/-- `min_jacket_thickness` (0.5 mm). -/
def min_jacket_thickness : ℚ := 1 / 2

/-- `jacket_thickness_mm` as derived by `transform_to_core_format` (before
the 3-decimal rounding applied when the record is assembled). -/
def jacketThicknessOf (sq : ℚ → ℚ) (nr : NormalizedLapp) (n : Nat) (od : ℚ) : ℚ :=
  max min_jacket_thickness
    ((od - bundleDiam sq (coresData nr n) n) / 2 -
      (if hasShieldOf nr then 1 / 20 else 0))

/-- The final LAPP cable record. -/
structure CableRec where
  cableId : String
  partNumber : String
  manufacturer : String
  name : String
  type : Nat
  cores : List CoreRec
  jacketThickness : ℚ
  jacketColor : String
  hasShield : Bool
  shieldType : Nat
  shieldThickness : ℚ
  shieldCoverage : Nat
  hasDrainWire : Bool
  drainWireDiameter : ℚ
  isFiller : Bool
  specifiedOuterDiameter : ℚ
  description : String
deriving DecidableEq

/-- `description` assembly for a LAPP record. -/
def descriptionOf (nr : NormalizedLapp) (n : Nat) : String :=
  let d0 := if strTruthy nr.row.construction then nr.row.construction.getD ""
    else if strTruthy nr.row.conductorDescription then
      nr.row.conductorDescription.getD ""
    else toString n ++ " core cable"
  if strTruthy nr.row.jacketMaterial then
    d0 ++ ", " ++ nr.row.jacketMaterial.getD "" ++ " jacket"
  else d0

/-- The record literal appended by `transform_to_core_format` for a row that
passed all preconditions. -/
def mkRecord (sq : ℚ → ℚ) (nr : NormalizedLapp) (n : Nat) (od : ℚ) : CableRec :=
  let pn := pyReplace (nr.row.partNumber.getD "UNKNOWN") "*" ""
  let style := nr.row.matchedStyle
  let cores := coresData nr n
  let hs := hasShieldOf nr
  let drain := (cores.map (fun c => pyLower c.insulationColor)).contains "drain"
  { cableId := pyReplace ((pySplit (pyLower style) "/").headD "") "®" "" ++ "-" ++
      pyReplace (pyLower pn) "*" ""
    partNumber := pn
    manufacturer := "LAPP"
    name := (pySplit style " ").headD "" ++ " " ++ nr.pairingConfig ++ " " ++
      nr.awgSize ++ " " ++ nr.row.jacketMaterial.getD ""
    type := 4
    cores := cores
    jacketThickness := pyRound3 (jacketThicknessOf sq nr n od)
    jacketColor := nr.row.jacketColor.getD "Gray"
    hasShield := hs
    shieldType := if hs then 1 else 0
    shieldThickness := if hs then 1 / 20 else 0
    shieldCoverage := if hs then 85 else 0
    hasDrainWire := drain
    drainWireDiameter := if drain then (AWG_TO_DIAMETER_MM.lookup "22").getD 0 else 0
    isFiller := false
    specifiedOuterDiameter := od
    description := descriptionOf nr n }

/-- The per-row body of `transform_to_core_format`: `none` exactly when the
row is skipped by one of the `continue` branches. -/
def transformRow? (sq : ℚ → ℚ) (nr : NormalizedLapp) : Option CableRec :=
  match nr.totalConductors with
  | none => none
  | some n =>
    if n < 1 then none
    else
      match parseOD? nr with
      | none => none
      | some od => if od ≤ 0 then none else some (mkRecord sq nr n od)

/-- `transform_to_core_format` of LAPPRegex.py: the loop with `continue` is
a filter-map over the normalized rows. -/
def transform_to_core_format (sq : ℚ → ℚ) (rows : List NormalizedLapp) :
    List CableRec :=
  rows.filterMap (transformRow? sq)

end LAPP

def exRowLapp : LAPP.LappRow :=
  { partNumber := some "2170894", matchedStyle := "Profibus/General Style",
    construction := none, conductorDescription := some "2 pr, 24 AWG",
    conductorCountField := none, nominalODmm := some "7.5",
    approvals := some "UL", jacketMaterial := some "PVC", jacketColor := none }

def exNormLapp : LAPP.NormalizedLapp :=
  ⟨exRowLapp, "24", "2 pr", some 4⟩

namespace M22759

/-- `MIL_STD_104_COLORS` of MIL-DTL-22759Regex.py, keyed by the single code
digit. -/
def MIL_STD_104_COLORS (c : Char) : Option String :=
  match c with
  | '0' => some "Black"
  | '1' => some "Brown"
  | '2' => some "Red"
  | '3' => some "Orange"
  | '4' => some "Yellow"
  | '5' => some "Green"
  | '6' => some "Blue"
  | '7' => some "Violet"
  | '8' => some "Gray"
  | '9' => some "White"
  | _ => none

/-- A normalized M22759 row (`normalize_m22759_properties` output): every
unit-pair field is always present. -/
structure M22759Normalized where
  partNumber : String
  awgSize : String
  stranding : String
  matchedStyle : String
  thermaxPN : String
  milSpec : String
  conductorDiameter : UnitPair
  insulationDiameterMin : UnitPair
  insulationDiameterMax : UnitPair
  weight : UnitPair
  maxResistance : UnitPair
  breakStrength : UnitPair
deriving DecidableEq

/-- `re.search(r'-(\d{1,2})$', part_number)`: the trailing run of digits when
it has length 1 or 2 and is preceded by `-`. -/
def colorCode? (pn : List Char) : Option (List Char) :=
  let rds := pn.reverse.takeWhile (·.isDigit)
  if 1 ≤ rds.length && rds.length ≤ 2 then
    match pn.reverse.drop rds.length with
    | '-' :: _ => some rds.reverse
    | _ => none
  else none

/-- The base wire colour derived from the part-number colour code (first
digit of the captured group; `White` when absent or unknown). -/
def baseColorOf (pn : String) : String :=
  match colorCode? pn.toList with
  | some ds => (MIL_STD_104_COLORS (ds.headD '0')).getD "White"
  | none => "White"

/-- The final M22759 record (single-conductor hookup wire). -/
structure CableRec22759 where
  cableId : String
  partNumber : String
  manufacturer : String
  name : String
  type : Nat
  cores : List CoreRec
  jacketThickness : ℚ
  jacketColor : String
  hasShield : Bool
  shieldType : Nat
  shieldThickness : ℚ
  shieldCoverage : Nat
  hasDrainWire : Bool
  drainWireDiameter : ℚ
  isFiller : Bool
  specifiedOuterDiameter : ℚ
  description : String
  weightKgKm : ℚ
  maxResistanceOhmKm : ℚ
  breakStrengthKg : ℚ
deriving DecidableEq

/-- The record assembled by `transform_to_core_format` of
MIL-DTL-22759Regex.py for one normalized row (no row is ever skipped). -/
def mkRecord22759 (row : M22759Normalized) : CableRec22759 :=
  let part_number := pyReplace row.partNumber "*" ""
  let cond_diam := row.conductorDiameter.metric
  let insul_max_od := row.insulationDiameterMax.metric
  let insul_thick := (insul_max_od - cond_diam) / 2
  let base_color := baseColorOf part_number
  { cableId := pyLower ("m22759-" ++
      pyReplace (pyReplace part_number "/" "-") " " "-")
    partNumber := part_number
    manufacturer := "Thermax (Implied)"
    name := row.milSpec ++ " " ++ row.awgSize ++ " AWG Hookup Wire"
    type := 1
    cores := [⟨"1", pyRound3 cond_diam,
      if insul_thick > 0 then pyRound3 insul_thick else 0, base_color,
      row.awgSize,
      "Plated Copper (" ++ pyReplace row.matchedStyle "M22759 " "" ++ ")"⟩]
    jacketThickness := 0
    jacketColor := base_color
    hasShield := false
    shieldType := 0
    shieldThickness := 0
    shieldCoverage := 0
    hasDrainWire := false
    drainWireDiameter := 0
    isFiller := false
    specifiedOuterDiameter := pyRound3 insul_max_od
    description := "MIL-W-22759 Hookup Wire, " ++ row.awgSize ++
      " AWG, Stranding " ++ row.stranding
    weightKgKm := pyRound3 row.weight.metric
    maxResistanceOhmKm := pyRound3 row.maxResistance.metric
    breakStrengthKg := pyRound3 row.breakStrength.metric }

/-- `transform_to_core_format` of MIL-DTL-22759Regex.py: one record per
normalized row, unconditionally. -/
def transform_to_core_format (rows : List M22759Normalized) :
    List CableRec22759 :=
  rows.map mkRecord22759

end M22759

def exRow22759 : M22759.M22759Normalized :=
  { partNumber := "M22759/5-8-9", awgSize := "8", stranding := "133/29",
    matchedStyle := "M22759 Standard", thermaxPN := "T12345",
    milSpec := "MIL-W-22759/5",
    conductorDiameter := ⟨171/1000, 434/100⟩,
    insulationDiameterMin := ⟨205/1000, 521/100⟩,
    insulationDiameterMax := ⟨215/1000, 546/100⟩,
    weight := ⟨32/1000, 4762/100⟩,
    maxResistance := ⟨70/100, 23/10⟩,
    breakStrength := ⟨0, 0⟩ }

namespace M27500

/-- `M27500_COMPONENT_CODES` of MIL-DTL-27500Regex.py. -/
def M27500_COMPONENT_CODES : List (String × String) :=
  [("SA", "M22759/7"), ("TA", "M22759/8"), ("RC", "M22759/11"),
   ("RE", "M22759/12"), ("TE", "M22759/16"), ("TF", "M22759/17"),
   ("TG", "M22759/18"), ("TH", "M22759/19"), ("VA", "M22759/5"),
   ("WA", "M22759/6"), ("LE", "M22759/9"), ("LH", "M22759/10"),
   ("TK", "M22759/20"), ("TL", "M22759/21"), ("TM", "M22759/22"),
   ("TN", "M22759/23"), ("JB", "M22759/28"), ("JC", "M22759/29"),
   ("JD", "M22759/30"), ("JE", "M22759/31"), ("WB", "M22759/80"),
   ("WC", "M22759/81"), ("WE", "M22759/82"), ("WG", "M22759/84"),
   ("WH", "M22759/85"), ("WJ", "M22759/86"), ("WK", "M22759/87"),
   ("WL", "M22759/88"), ("WM", "M22759/89"), ("WN", "M22759/90"),
   ("WP", "M22759/91"), ("WR", "M22759/92"), ("JA", "M25038/1"),
   ("JF", "M25038/3"), ("MR", "M81381/7"), ("MS", "M81381/8"),
   ("MT", "M81381/9"), ("MV", "M81381/10"), ("MW", "M81381/11"),
   ("MY", "M81381/12"), ("NA", "M81381/13"), ("NB", "M81381/14"),
   ("NE", "M81381/17"), ("NF", "M81381/18"), ("NG", "M81381/19"),
   ("NH", "M81381/20"), ("NK", "M81381/21"), ("NL", "M81381/22")]

/-- `M27500_SHIELD_CODES` of MIL-DTL-27500Regex.py. -/
def M27500_SHIELD_CODES : List (String × String) :=
  [("U", "None"), ("NY", "Nickel-plated copper (Round)"),
   ("SW", "Silver-plated copper (Round)"), ("TV", "Tin-plated copper (Round)"),
   ("CR", "Heavy Nickel-plated copper (Round)"), ("FZ", "Stainless steel (Round)"),
   ("PL", "Ni-plated high-strength Cu alloy (Round)"),
   ("MK", "Ag-plated high-strength Cu alloy (Round)"),
   ("#", "Ni-plated copper (Flat)"), ("GA", "Ag-plated copper (Flat)"),
   ("JD", "Tin-plated copper (Flat)"),
   ("EX", "Ni-plated high-strength Cu alloy (Flat)"),
   ("HB", "Ag-plated high-strength Cu alloy (Flat)")]

/-- `M27500_JACKET_CODES` of MIL-DTL-27500Regex.py. -/
def M27500_JACKET_CODES : List (String × String) :=
  [("00", "None"), ("50", "None"),
   ("15", "ETFE, extruded, clear"), ("65", "ETFE, extruded, clear (Double)"),
   ("14", "ETFE, extruded, white"), ("64", "ETFE, extruded, white (Double)"),
   ("05", "FEP, extruded, clear"), ("55", "FEP, extruded, clear (Double)"),
   ("09", "FEP, extruded, white"), ("59", "FEP, extruded, white (Double)"),
   ("02", "Nylon, extruded, clear"), ("52", "Nylon, extruded, clear (Double)"),
   ("21", "PFA, extruded, clear"), ("71", "PFA, extruded, clear (Double)"),
   ("20", "PFA, extruded, white"), ("70", "PFA, extruded, white (Double)"),
   ("11", "Natural polyimide / clear FEP tape"),
   ("61", "Natural polyimide / clear FEP tape (Double)"),
   ("12", "Natural polyimide / FEP tape"),
   ("62", "Natural polyimide / FEP tape (Double)"),
   ("06", "PTFE, taped, white"), ("56", "PTFE, taped, white (Double)"),
   ("24", "PTFE/Polyimide tape (Outer PTFE tape)"),
   ("74", "PTFE/Polyimide tape (Double)"),
   ("07", "PTFE-coated glass braid"),
   ("57", "PTFE-coated glass braid (Double)"),
   ("01", "PVC, extruded, white"), ("51", "PVC, extruded, white (Double)")]

/-- `M27500_TYPE_CODE_DEFAULTS` of MIL-DTL-27500Regex.py: default shield and
jacket codes by type code. -/
def M27500_TYPE_CODE_DEFAULTS : List (String × String × String) :=
  [("SA", "N", "06"), ("TA", "N", "06"), ("RC", "N", "06"), ("RE", "N", "06"),
   ("VA", "N", "06"), ("WA", "N", "06"), ("LE", "N", "06"), ("LH", "N", "06"),
   ("TE", "N", "14"), ("TF", "N", "14"), ("TG", "N", "14"), ("TH", "N", "14"),
   ("TK", "N", "14"), ("TL", "N", "14"), ("TM", "N", "14"), ("TN", "N", "14"),
   ("WB", "N", "24"), ("WC", "N", "24"), ("WE", "N", "24")]

/-- `get_default_codes_by_type` of MIL-DTL-27500Regex.py: fall back to the
unshielded, no-jacket pair `('U', '00')` when the type code is unknown. -/
def get_default_codes_by_type (type_code : String) : String × String :=
  (M27500_TYPE_CODE_DEFAULTS.lookup type_code).getD ("U", "00")

/-- A cleaned M27500 data row (`clean_match_row` output for the five-field
header list; all keys are always present). -/
structure M27500RowData where
  awgSize : String
  stranding : String
  shieldDiameter : String
  jacketDiameter : String
  weight : String
deriving DecidableEq

/-- A normalized M27500 row (`normalize_m27500_properties` output). -/
structure M27500Normalized where
  partNumberBase : Option String
  awgSize : String
  stranding : String
  conductorCount : Nat
  typeCode : String
  shieldDiameter : UnitPair
  jacketDiameter : UnitPair
  weight : UnitPair
  fullPartNumberBase : String
  shieldMaterialCode : String
  jacketMaterialCode : String
deriving DecidableEq

/-- The `awg_code` computation of `normalize_m27500_properties`: zero-pad
a digit string, strip `/` from forms like `2/0`, else the `XX` fallback. -/
def awgCodeOf (awgRaw : String) : String :=
  if isDigitStr awgRaw then
    let n := digitsToNat awgRaw.toList
    if n < 10 then "0" ++ toString n else toString n
  else if pyContains awgRaw "/" then pyReplace awgRaw "/" ""
  else "XX"

/-- `normalize_m27500_properties` of MIL-DTL-27500Regex.py.  The row
dictionary never carries a `Part Number Base` key (the header list has only
the five data fields), so that entry is always `None`. -/
def normalize_m27500_properties (row_data : M27500RowData)
    (conductor_count : Nat) (type_code : String) : M27500Normalized :=
  let codes := get_default_codes_by_type type_code
  let awg_code := awgCodeOf (pyStrip row_data.awgSize)
  { partNumberBase := none
    awgSize := row_data.awgSize
    stranding := row_data.stranding
    conductorCount := conductor_count
    typeCode := type_code
    shieldDiameter := parse_unit_pair row_data.shieldDiameter
    jacketDiameter := parse_unit_pair row_data.jacketDiameter
    weight := parse_unit_pair row_data.weight
    fullPartNumberBase := "M27500-" ++ awg_code ++ type_code ++
      toString conductor_count ++ "C" ++ codes.1 ++ codes.2
    shieldMaterialCode := codes.1
    jacketMaterialCode := codes.2 }

/-- `[c.strip() for c in codes_str.replace('and', ',').split(',') if c.strip()]`. -/
def parseTypeCodes (s : String) : List String :=
  ((pySplit (pyReplace s "and" ",") ",").map pyStrip).filter (fun c => !(c == ""))

/-- One match of the composite master pattern of
`extract_datasheet_info_27500`: a context declaration (the raw captured
`TYPE_CODES` text), a section header (the captured conductor count), or a
data row (the five cleaned fields). -/
inductive MatchEvent where
  | context (typeCodesStr : String)
  | header (count : Nat)
  | dataRow (d : M27500RowData)
deriving DecidableEq

/-- The mutable `current_context` threaded through the scan. -/
structure ScanState where
  conductorCount : Nat
  typeCodes : List String
deriving DecidableEq

/-- One iteration of the scan loop: the updated context and the normalized
rows appended for this match. -/
def scanStep (st : ScanState) (e : MatchEvent) :
    ScanState × List M27500Normalized :=
  match e with
  | .context s => (⟨st.conductorCount, parseTypeCodes s⟩, [])
  | .header n => (⟨n, st.typeCodes⟩, [])
  | .dataRow d =>
    (st,
      if st.conductorCount > 0 && !st.typeCodes.isEmpty then
        st.typeCodes.map (fun tc =>
          normalize_m27500_properties d st.conductorCount tc)
      else [])

/-- The scan from a given context state. -/
def scanFrom (st : ScanState) : List MatchEvent → List M27500Normalized
  | [] => []
  | e :: es => (scanStep st e).2 ++ scanFrom (scanStep st e).1 es

/-- `extract_datasheet_info_27500` of MIL-DTL-27500Regex.py over the stream
of master-pattern matches in document order, starting from the empty context
(`conductor_count = 0`, no type codes). -/
def extract_datasheet_info_27500 (evs : List MatchEvent) :
    List M27500Normalized :=
  scanFrom ⟨0, []⟩ evs

/-- The context state after a list of matches. -/
def stateAfter (st : ScanState) (evs : List MatchEvent) : ScanState :=
  evs.foldl (fun s e => (scanStep s e).1) st

/-- The most recently captured `TYPE_CODES` text, if any. -/
def latestContext (evs : List MatchEvent) : Option String :=
  evs.foldl (fun a e => match e with | .context s => some s | _ => a) none

/-- The most recently captured conductor count, if any. -/
def latestHeader (evs : List MatchEvent) : Option Nat :=
  evs.foldl (fun a e => match e with | .header n => some n | _ => a) none

/-- Is a match a context declaration? -/
def isContextEv : MatchEvent → Bool
  | .context _ => true
  | _ => false

/-- Is a match a section header? -/
def isHeaderEv : MatchEvent → Bool
  | .header _ => true
  | _ => false

/-- The final M27500 record. -/
structure CableRec27500 where
  cableId : String
  partNumber : String
  manufacturer : String
  name : String
  type : Nat
  cores : List CoreRec
  jacketThickness : ℚ
  jacketColor : String
  jacketMaterial : String
  hasShield : Bool
  shieldType : Nat
  shieldMaterial : String
  shieldThickness : ℚ
  shieldCoverage : Nat
  hasDrainWire : Bool
  drainWireDiameter : ℚ
  isFiller : Bool
  specifiedOuterDiameter : ℚ
  description : String
  weightKgKm : ℚ
deriving DecidableEq

/-- The record assembled by `transform_to_core_format_27500` for one
normalized row (no row is ever skipped). -/
def transformRow27500 (row : M27500Normalized) : CableRec27500 :=
  let full_pn := row.fullPartNumberBase
  let comp_mil_spec := (M27500_COMPONENT_CODES.lookup row.typeCode).getD "UNKNOWN"
  let jacket_desc := (M27500_JACKET_CODES.lookup row.jacketMaterialCode).getD
    ("Code " ++ row.jacketMaterialCode)
  let shield_desc := (M27500_SHIELD_CODES.lookup row.shieldMaterialCode).getD
    ("Code " ++ row.shieldMaterialCode)
  let is_shielded := !(row.shieldMaterialCode == "U" || row.shieldMaterialCode == "u")
  let specified_od := row.jacketDiameter.metric
  let jacket_thickness_est := (specified_od - row.shieldDiameter.metric) / 2
  { cableId := "m27500-" ++ pyLower (pyReplace full_pn "/" "-")
    partNumber := full_pn
    manufacturer := "Thermax (Implied)"
    name := "MIL-DTL-27500 " ++ toString row.conductorCount ++ "C " ++
      row.awgSize ++ "AWG Cable Type " ++ row.typeCode
    type := 2
    cores := (List.range row.conductorCount).map (fun i =>
      ⟨toString (i + 1), 1/2, 1/10, "Code " ++ toString (i + 1) ++ " (M27500)",
        row.awgSize, "Plated Copper (from " ++ comp_mil_spec ++ ")"⟩)
    jacketThickness := if jacket_thickness_est > 0 then
        pyRound3 jacket_thickness_est
      else 0
    jacketColor := "White/Clear (Code dependent)"
    jacketMaterial := jacket_desc
    hasShield := is_shielded
    shieldType := if is_shielded then 1 else 0
    shieldMaterial := shield_desc
    shieldThickness := 0
    shieldCoverage := 90
    hasDrainWire := false
    drainWireDiameter := 0
    isFiller := false
    specifiedOuterDiameter := pyRound3 specified_od
    description := "MIL-DTL-27500 Cable: " ++ toString row.conductorCount ++
      " conductors of " ++ comp_mil_spec ++ " wire, Stranding " ++
      row.stranding ++ "."
    weightKgKm := pyRound3 row.weight.metric }

/-- `transform_to_core_format_27500` of MIL-DTL-27500Regex.py. -/
def transform_to_core_format_27500 (rows : List M27500Normalized) :
    List CableRec27500 :=
  rows.map transformRow27500

end M27500

def exData27500 : M27500.M27500RowData :=
  ⟨"22", "19/34", "0.052 (1.32)", "0.077 (1.96)", "6.2 (9.2)"⟩

namespace Merge

/-- A JSON value as handled by merge_cable_libraries.py. -/
inductive JVal where
  | str (s : String)
  | num (q : ℚ)
  | boolean (b : Bool)
  | arr (l : List JVal)
  | obj (l : List (String × JVal))
  | null

/-- Structural equality on JSON values (Python `==` used by the
`cable_ids` set membership). -/
def jvalBEq : JVal → JVal → Bool
  | .str a, .str b => a == b
  | .num a, .num b => a == b
  | .boolean a, .boolean b => a == b
  | .null, .null => true
  | .arr a, .arr b => jvalListBEq a b
  | .obj a, .obj b => jvalObjBEq a b
  | _, _ => false
where
  jvalListBEq : List JVal → List JVal → Bool
    | [], [] => true
    | a :: as', b :: bs => jvalBEq a b && jvalListBEq as' bs
    | _, _ => false
  jvalObjBEq : List (String × JVal) → List (String × JVal) → Bool
    | [], [] => true
    | (k, a) :: as', (l, b) :: bs => k == l && jvalBEq a b && jvalObjBEq as' bs
    | _, _ => false

/-- Python truthiness of a JSON value. -/
def jTruthyV : JVal → Bool
  | .str s => !(s == "")
  | .num q => !(q == 0)
  | .boolean b => b
  | .arr l => !l.isEmpty
  | .obj l => !l.isEmpty
  | .null => false

/-- A cable entry: a JSON object's field list (unique keys, order as read). -/
abbrev Entry := List (String × JVal)

/-- `ALLOWED_CABLE_PARAMS` (as written in the source). -/
def ALLOWED_CABLE_PARAMS : List String :=
  ["CableId", "PartNumber", "Manufacturer", "Name", "Type", "Cores",
   "JacketThickness", "JacketColor", "HasShield", "ShieldType",
   "ShieldThickness", "ShieldCoverage", "HasDrainWire", "DrainWireDiameter",
   "IsFiller", "SpecifiedOuterDiameter", "Description"]

/-- `ALLOWED_CORE_PARAMS`. -/
def ALLOWED_CORE_PARAMS : List String :=
  ["CoreId", "ConductorDiameter", "InsulationThickness", "InsulationColor",
   "Gauge", "ConductorMaterial"]

/-- Filter one core object to the allowed core parameters. -/
def filterCore (v : JVal) : JVal :=
  match v with
  | .obj fs => .obj (fs.filter (fun kv => ALLOWED_CORE_PARAMS.contains kv.1))
  | v => v

/-- Filter the `Cores` value (a list of core objects). -/
def filterCores (v : JVal) : JVal :=
  match v with
  | .arr cs => .arr (cs.map filterCore)
  | v => v

/-- `filter_cable_entry` of merge_cable_libraries.py (the key order of the
result is canonicalized to the allow-list order; a Python dict compares
equal regardless of key order). -/
def filter_cable_entry (cable : Entry) : Entry :=
  ALLOWED_CABLE_PARAMS.filterMap fun k =>
    match List.lookup k cable with
    | none => none
    | some v => some (k, if k == "Cores" then filterCores v else v)

/-- Membership of a value in the accumulated `cable_ids` set. -/
def jmem (v : JVal) (l : List JVal) : Bool :=
  l.any (fun u => jvalBEq v u)

/-- The merge accumulator: the `all_cables` list, the `cable_ids` set (as
the list of added values) and the duplicate identifiers reported. -/
structure MState where
  cables : List Entry
  ids : List JVal
  dups : List JVal

/-- The body of the merge loop for one cable entry. -/
def mergeStep (st : MState) (cable : Entry) : MState :=
  match List.lookup "CableId" cable with
  | none => st
  | some v =>
    if jTruthyV v && !jmem v st.ids then
      ⟨st.cables ++ [filter_cable_entry cable], st.ids ++ [v], st.dups⟩
    else if jmem v st.ids then ⟨st.cables, st.ids, st.dups ++ [v]⟩
    else st

/-- Merging all entries of one input file into the accumulator. -/
def mergeEntries (st : MState) (l : List Entry) : MState :=
  l.foldl mergeStep st

/-- The empty accumulator. -/
def initState : MState := ⟨[], [], []⟩

/-- `merge_json_files` of merge_cable_libraries.py, over the already-loaded
record lists in input order (the file I/O is outside the model). -/
def merge_json_files (files : List (List Entry)) : MState :=
  files.foldl mergeEntries initState

end Merge

def exRowDeviceNet : LAPP.LappRow :=
  { partNumber := some "2170222", matchedStyle := "DeviceNet Style",
    construction := none, conductorDescription := some "2 pr, 22 AWG",
    conductorCountField := none, nominalODmm := some "6.7",
    approvals := none, jacketMaterial := some "PVC", jacketColor := none }

namespace Merge

/-- The `CableId` string of an entry (empty for a missing or non-string id);
the identifier by which the merger deduplicates. -/
def idOfD (e : Entry) : String :=
  match List.lookup "CableId" e with
  | some (.str s) => s
  | _ => ""

/-- Does the entry carry a non-empty string `CableId`? -/
def goodE (e : Entry) : Bool :=
  match List.lookup "CableId" e with
  | some (.str s) => !(s == "")
  | _ => false

/-- Membership of a string in a list of strings. -/
def strMem (x : String) (l : List String) : Bool :=
  l.any (fun y => x == y)

end Merge

/-- Claim C1: `parse_unit_pair` (in both the M22759 and the M27500 extractor)
is total into the two-field `UnitPair` structure — the embedded form of
"key set exactly {us, metric}, never raises".  If the token matches the
anchored pattern `<number> ( <number> )` (both captured groups being valid
number literals `a` and `b`) the result is `{us := a, metric := b}`, and on
any token from which no number can be parsed — the pattern fails and the
whole stripped token is not a float — the result is `{us := 0, metric := 0}`. -/
theorem c1_parse_unit_pair_contract (s : String) :
    (∀ g1 g2 a b,
      matchUnitPair? (pyStripL s.toList) = some (g1, g2) →
      numLitVal? g1 = some a → numLitVal? g2 = some b →
      M22759.parse_unit_pair s = ⟨a, b⟩ ∧ M27500.parse_unit_pair s = ⟨a, b⟩) ∧
    (matchUnitPair? (pyStripL s.toList) = none →
      pyFloatSigned? (pyStripL s.toList) = none →
      M22759.parse_unit_pair s = ⟨0, 0⟩ ∧ M27500.parse_unit_pair s = ⟨0, 0⟩) := by
  constructor
  · intro g1 g2 a b hm h1 h2
    unfold M22759.parse_unit_pair M27500.parse_unit_pair
    simp only [hm, h1, h2]
    exact ⟨trivial, trivial⟩
  · intro hm hf
    unfold M22759.parse_unit_pair M27500.parse_unit_pair
    simp only [hm, hf]
    exact ⟨trivial, trivial⟩

/-- Witness for C1 at the concrete tokens `"0.295 (7.49)"` (a valid
unit-pair token) and `"abc"` (an unparseable token). -/
theorem c1_parse_unit_pair_contract_witness :
    (M22759.parse_unit_pair "0.295 (7.49)" = ⟨59/200, 749/100⟩ ∧
      M27500.parse_unit_pair "0.295 (7.49)" = ⟨59/200, 749/100⟩) ∧
    (M22759.parse_unit_pair "abc" = ⟨0, 0⟩ ∧
      M27500.parse_unit_pair "abc" = ⟨0, 0⟩) :=
  ⟨(c1_parse_unit_pair_contract "0.295 (7.49)").1
      ['0', '.', '2', '9', '5'] ['7', '.', '4', '9'] (59/200) (749/100) rfl
      (by with_unfolding_all rfl) (by with_unfolding_all rfl),
    (c1_parse_unit_pair_contract "abc").2 rfl rfl⟩

lemma le_foldl_max (xs : List ℚ) : ∀ x : ℚ, x ≤ xs.foldl max x := by
  induction xs with
  | nil => intro x; exact le_refl x
  | cons y ys ih => intro x; exact le_trans (le_max_left x y) (ih (max x y))

lemma mem_le_foldl_max (xs : List ℚ) :
    ∀ (x y : ℚ), y ∈ xs → y ≤ xs.foldl max x := by
  induction xs with
  | nil => intro x y hy; cases hy
  | cons z zs ih =>
    intro x y hy
    rcases List.mem_cons.mp hy with h | h
    · subst h; exact le_trans (le_max_right x y) (le_foldl_max zs _)
    · exact ih _ y h

lemma foldl_max_mem (xs : List ℚ) :
    ∀ x : ℚ, xs.foldl max x = x ∨ xs.foldl max x ∈ xs := by
  induction xs with
  | nil => intro x; exact Or.inl rfl
  | cons y ys ih =>
    intro x
    rcases ih (max x y) with h | h
    · rcases max_choice x y with hm | hm
      · exact Or.inl (by rw [List.foldl_cons, h, hm])
      · refine Or.inr ?_
        rw [List.foldl_cons, h, hm]
        exact List.mem_cons_self _ _
    · exact Or.inr (List.mem_cons_of_mem _ h)

lemma floor_le_roundHalfEven (x : ℚ) : ⌊x⌋ ≤ roundHalfEven x := by
  unfold roundHalfEven
  split
  · split
    · exact le_refl _
    · omega
  · rw [round_eq]
    exact Int.floor_le_floor (by linarith)

lemma pyRound3_ge_half (x : ℚ) (hx : 1 / 2 ≤ x) : 1 / 2 ≤ pyRound3 x := by
  unfold pyRound3
  have h1 : (500 : ℤ) ≤ ⌊x * 1000⌋ := by
    apply Int.le_floor.mpr
    push_cast
    linarith
  have h2 : (500 : ℤ) ≤ roundHalfEven (x * 1000) :=
    le_trans h1 (floor_le_roundHalfEven _)
  have h3 : (500 : ℚ) ≤ (roundHalfEven (x * 1000) : ℚ) := by exact_mod_cast h2
  linarith

lemma lapp_transformRow?_eq_some {sq : ℚ → ℚ} {nr : LAPP.NormalizedLapp}
    {r : LAPP.CableRec} (h : LAPP.transformRow? sq nr = some r) :
    ∃ n od, nr.totalConductors = some n ∧ ¬n < 1 ∧
      LAPP.parseOD? nr = some od ∧ ¬od ≤ 0 ∧ r = LAPP.mkRecord sq nr n od := by
  unfold LAPP.transformRow? at h
  cases htc : nr.totalConductors with
  | none => rw [htc] at h; exact absurd h (by simp)
  | some n =>
    rw [htc] at h
    by_cases hn : n < 1
    · simp [hn] at h
    · simp only [if_neg hn] at h
      cases hod : LAPP.parseOD? nr with
      | none => rw [hod] at h; exact absurd h (by simp)
      | some od =>
        rw [hod] at h
        by_cases h0 : od ≤ 0
        · simp [h0] at h
        · simp only [if_neg h0, Option.some.injEq] at h
          exact ⟨n, od, rfl, hn, rfl, h0, h.symm⟩

/-- Claim C2: for every LAPP row that survives the preconditions (so the
transformer emits a record), the derived jacket thickness is
`max(0.5, (specifiedOuterDiameter − bundleDiameter)/2 − shieldAllowance)`
with a shield allowance of 0.05 mm exactly when a shield is detected; the
emitted `JacketThickness` field is that value rounded to 3 decimals, as the
record assembly does. -/
theorem c2_lapp_jacket_thickness (sq : ℚ → ℚ) (nr : LAPP.NormalizedLapp)
    (r : LAPP.CableRec) (h : LAPP.transformRow? sq nr = some r) :
    ∃ n od, nr.totalConductors = some n ∧ LAPP.parseOD? nr = some od ∧
      r.specifiedOuterDiameter = od ∧
      LAPP.jacketThicknessOf sq nr n od =
        max LAPP.min_jacket_thickness
          ((od - LAPP.bundleDiam sq (LAPP.coresData nr n) n) / 2 -
            (if LAPP.hasShieldOf nr then 1 / 20 else 0)) ∧
      r.jacketThickness = pyRound3 (LAPP.jacketThicknessOf sq nr n od) := by
  obtain ⟨n, od, htc, _, hod, _, hr⟩ := lapp_transformRow?_eq_some h
  subst hr
  exact ⟨n, od, htc, hod, rfl, rfl, rfl⟩

/-- Witness for C2 at a concrete Profibus-style row. -/
theorem c2_lapp_jacket_thickness_witness :
    ∃ r, LAPP.transformRow? (fun _ => 0) exNormLapp = some r ∧
      ∃ n od, exNormLapp.totalConductors = some n ∧
        LAPP.parseOD? exNormLapp = some od ∧
        r.specifiedOuterDiameter = od ∧
        LAPP.jacketThicknessOf (fun _ => 0) exNormLapp n od =
          max LAPP.min_jacket_thickness
            ((od - LAPP.bundleDiam (fun _ => 0)
                (LAPP.coresData exNormLapp n) n) / 2 -
              (if LAPP.hasShieldOf exNormLapp then 1 / 20 else 0)) ∧
        r.jacketThickness =
          pyRound3 (LAPP.jacketThicknessOf (fun _ => 0) exNormLapp n od) := by
  have h : LAPP.transformRow? (fun _ => 0) exNormLapp =
      some (LAPP.mkRecord (fun _ => 0) exNormLapp 4 (15/2)) := by
    with_unfolding_all rfl
  exact ⟨_, h, c2_lapp_jacket_thickness (fun _ => 0) exNormLapp _ h⟩

/-- Claim C3: for a row with a non-empty core list, the bundle (pre-jacket)
diameter is `maxCoreOD × 2` for 4 or fewer total conductors and
`maxCoreOD × (1 + sqrt(totalConductors)/2)` otherwise, where `maxCoreOD` is
the maximum over all cores of conductor diameter + 2 × insulation
thickness (`sq` stands for the float `math.sqrt`). -/
theorem c3_lapp_bundle_diameter (sq : ℚ → ℚ) (nr : LAPP.NormalizedLapp)
    (n : Nat) (h : LAPP.coresData nr n ≠ []) :
    (LAPP.bundleDiam sq (LAPP.coresData nr n) n =
      if n ≤ 4 then LAPP.maxCoreOD (LAPP.coresData nr n) * 2
      else LAPP.maxCoreOD (LAPP.coresData nr n) * (1 + sq n / 2)) ∧
    (∃ c ∈ LAPP.coresData nr n,
      LAPP.maxCoreOD (LAPP.coresData nr n) = LAPP.coreOD c) ∧
    (∀ c ∈ LAPP.coresData nr n,
      LAPP.coreOD c ≤ LAPP.maxCoreOD (LAPP.coresData nr n)) := by
  obtain ⟨c, cs, hcs⟩ := List.exists_cons_of_ne_nil h
  rw [hcs]
  refine ⟨?_, ?_, ?_⟩
  · unfold LAPP.bundleDiam
    simp
  · have hm := foldl_max_mem (cs.map LAPP.coreOD) (LAPP.coreOD c)
    unfold LAPP.maxCoreOD
    simp only [List.map_cons]
    rcases hm with h1 | h1
    · exact ⟨c, List.mem_cons_self _ _, h1⟩
    · obtain ⟨c', hc', he⟩ := List.mem_map.mp h1
      exact ⟨c', List.mem_cons_of_mem _ hc', he.symm⟩
  · intro c' hc'
    unfold LAPP.maxCoreOD
    simp only [List.map_cons]
    rcases List.mem_cons.mp hc' with h1 | h1
    · subst h1; exact le_foldl_max _ _
    · exact mem_le_foldl_max _ _ _ (List.mem_map_of_mem LAPP.coreOD h1)

/-- Witness for C3 at the concrete row `exNormLapp` (4 conductors). -/
theorem c3_lapp_bundle_diameter_witness :
    (LAPP.bundleDiam (fun _ => 0) (LAPP.coresData exNormLapp 4) 4 =
      if 4 ≤ 4 then LAPP.maxCoreOD (LAPP.coresData exNormLapp 4) * 2
      else LAPP.maxCoreOD (LAPP.coresData exNormLapp 4) * (1 + (0 : ℚ) / 2)) ∧
    (∃ c ∈ LAPP.coresData exNormLapp 4,
      LAPP.maxCoreOD (LAPP.coresData exNormLapp 4) = LAPP.coreOD c) ∧
    (∀ c ∈ LAPP.coresData exNormLapp 4,
      LAPP.coreOD c ≤ LAPP.maxCoreOD (LAPP.coresData exNormLapp 4)) := by
  have hlen : (LAPP.coresData exNormLapp 4).length = 4 := by
    with_unfolding_all rfl
  have hne : LAPP.coresData exNormLapp 4 ≠ [] := by
    intro he; rw [he] at hlen; exact absurd hlen (by decide)
  exact c3_lapp_bundle_diameter (fun _ => 0) exNormLapp 4 hne

/-- Claim C4 (amended): for every normalized row handled by the
construction-parsing branch (style not the ÖLFLEX style) whose style is not
a DeviceNet style (whose fixed five-conductor layout overrides the result),
a pairing-notation match `N pr`/`N pair` sets `TotalConductors = 2N` and
`PairingConfiguration = "N pr"`; the conclusion holds whether or not the
bare conductor-count notation also matches, which is the precedence of
pairing notation over `NC` notation. -/
theorem c4_lapp_pairing_precedence (row : LAPP.LappRow) (style : String)
    (h1 : style ≠ LAPP.olflexStyle)
    (h2 : pyContains style "DeviceNet" = false)
    (pf : String) (hpf : LAPP.parseFieldOf row = some pf)
    (np : Nat) (hm : LAPP.searchPairing pf = some np) :
    (LAPP.normalize_cable_properties row style).pairingConfig =
      toString np ++ " pr" ∧
    (LAPP.normalize_cable_properties row style).totalConductors =
      some (np * 2) := by
  unfold LAPP.normalize_cable_properties
  rw [if_neg h1]
  simp only [hpf, hm, h2]
  exact ⟨rfl, rfl⟩

/-- Witness for C4 at the concrete Profibus-style row `exRowLapp`
(description `"2 pr, 24 AWG"`). -/
theorem c4_lapp_pairing_precedence_witness :
    (LAPP.normalize_cable_properties exRowLapp
      "Profibus/General Style").pairingConfig = toString 2 ++ " pr" ∧
    (LAPP.normalize_cable_properties exRowLapp
      "Profibus/General Style").totalConductors = some (2 * 2) :=
  c4_lapp_pairing_precedence exRowLapp "Profibus/General Style"
    (by decide) (by decide) "2 pr, 24 AWG" (by decide) 2 (by decide)

/-- Counterexample to C4 as stated: a DeviceNet-style row whose parse field
contains the pairing notation `2 pr` is normalized to the fixed layout
`TotalConductors = 5`, `PairingConfiguration = "2P + 1T"` — not `4` and
`"2 pr"` — because the DeviceNet special case overwrites both fields after
the pairing match. -/
theorem c4_lapp_pairing_counterexample :
    LAPP.parseFieldOf exRowDeviceNet = some "2 pr, 22 AWG" ∧
    LAPP.searchPairing "2 pr, 22 AWG" = some 2 ∧
    (LAPP.normalize_cable_properties exRowDeviceNet
      "DeviceNet Style").totalConductors = some 5 ∧
    (LAPP.normalize_cable_properties exRowDeviceNet
      "DeviceNet Style").pairingConfig = "2P + 1T" ∧
    (some 5 : Option Nat) ≠ some (2 * 2) ∧ "2P + 1T" ≠ "2 pr" :=
  ⟨by decide, by decide, by decide, by decide, by decide, by decide⟩

/-- Claim C5 (amended): every record emitted by the LAPP assembler has
`JacketThickness ≥ 0.5` mm no matter how small the residual radial space
is.  (The claim as stated — over all three assemblers — fails: the M22759
assembler always writes `JacketThickness = 0.0`; see the counterexample.) -/
theorem c5_lapp_min_jacket (sq : ℚ → ℚ) (nr : LAPP.NormalizedLapp)
    (r : LAPP.CableRec) (h : LAPP.transformRow? sq nr = some r) :
    1 / 2 ≤ r.jacketThickness := by
  obtain ⟨n, od, _, _, _, _, hr⟩ := lapp_transformRow?_eq_some h
  subst hr
  show 1 / 2 ≤ pyRound3 (LAPP.jacketThicknessOf sq nr n od)
  exact pyRound3_ge_half _ (le_max_left _ _)

/-- Witness for C5 at a concrete LAPP row. -/
theorem c5_lapp_min_jacket_witness :
    ∃ r, LAPP.transformRow? (fun _ => 0) exNormLapp = some r ∧
      1 / 2 ≤ r.jacketThickness := by
  have h : LAPP.transformRow? (fun _ => 0) exNormLapp =
      some (LAPP.mkRecord (fun _ => 0) exNormLapp 4 (15/2)) := by
    with_unfolding_all rfl
  exact ⟨_, h, c5_lapp_min_jacket (fun _ => 0) exNormLapp _ h⟩

/-- Counterexample to C5 as stated: the M22759 assembler emits a record with
`JacketThickness = 0 < 0.5` for every row (here a concrete M22759/5 row). -/
theorem c5_min_jacket_counterexample :
    (M22759.transform_to_core_format [exRow22759]).map (·.jacketThickness) =
      [0] ∧ ¬(1 / 2 ≤ (0 : ℚ)) :=
  ⟨by with_unfolding_all rfl, by norm_num⟩

/-- Claim C6: the LAPP transformer emits a record for a normalized row iff
`TotalConductors` is a positive integer and the outer-diameter field parses
(after the documented cleanup) to a positive value; and a skipped row leaves
the rest of the batch untouched (the output for `row :: rest` is the
emission of `row` — one record or nothing — followed by the output for
`rest`). -/
theorem c6_lapp_emission_iff (sq : ℚ → ℚ) (nr : LAPP.NormalizedLapp)
    (rest : List LAPP.NormalizedLapp) :
    ((∃ r, LAPP.transformRow? sq nr = some r) ↔
      ∃ n, nr.totalConductors = some n ∧ 1 ≤ n ∧
        ∃ od, LAPP.parseOD? nr = some od ∧ 0 < od) ∧
    LAPP.transform_to_core_format sq (nr :: rest) =
      (LAPP.transformRow? sq nr).toList ++
        LAPP.transform_to_core_format sq rest := by
  constructor
  · constructor
    · rintro ⟨r, h⟩
      obtain ⟨n, od, htc, hn, hod, h0, _⟩ := lapp_transformRow?_eq_some h
      exact ⟨n, htc, by omega, od, hod, by linarith [not_le.mp h0]⟩
    · rintro ⟨n, htc, hn, od, hod, h0⟩
      refine ⟨LAPP.mkRecord sq nr n od, ?_⟩
      unfold LAPP.transformRow?
      rw [htc]
      simp only [if_neg (by omega : ¬n < 1), hod,
        if_neg (not_le.mpr h0)]
  · unfold LAPP.transform_to_core_format
    rw [List.filterMap_cons]
    cases LAPP.transformRow? sq nr <;> simp

lemma m27500_scanFrom_append (xs ys : List M27500.MatchEvent) :
    ∀ st, M27500.scanFrom st (xs ++ ys) =
      M27500.scanFrom st xs ++ M27500.scanFrom (M27500.stateAfter st xs) ys := by
  induction xs with
  | nil => intro st; rfl
  | cons e es ih =>
    intro st
    show (M27500.scanStep st e).2 ++
        M27500.scanFrom (M27500.scanStep st e).1 (es ++ ys) = _
    rw [ih]
    exact (List.append_assoc _ _ _).symm

lemma m27500_header_foldl (es : List M27500.MatchEvent) :
    ∀ a : Option Nat,
      es.foldl (fun acc e => match e with
        | .header n => some n
        | _ => acc) a = (M27500.latestHeader es).elim a some := by
  induction es with
  | nil => intro a; rfl
  | cons e es ih =>
    intro a
    rw [List.foldl_cons, ih]
    have hL : M27500.latestHeader (e :: es) =
        (M27500.latestHeader es).elim
          (match e with | .header n => some n | _ => none) some := ih _
    rw [hL]
    cases M27500.latestHeader es <;> cases e <;> rfl

lemma m27500_context_foldl (es : List M27500.MatchEvent) :
    ∀ a : Option String,
      es.foldl (fun acc e => match e with
        | .context s => some s
        | _ => acc) a = (M27500.latestContext es).elim a some := by
  induction es with
  | nil => intro a; rfl
  | cons e es ih =>
    intro a
    rw [List.foldl_cons, ih]
    have hL : M27500.latestContext (e :: es) =
        (M27500.latestContext es).elim
          (match e with | .context s => some s | _ => none) some := ih _
    rw [hL]
    cases M27500.latestContext es <;> cases e <;> rfl

lemma m27500_stateAfter_count (evs : List M27500.MatchEvent) :
    ∀ st, (M27500.stateAfter st evs).conductorCount =
      (M27500.latestHeader evs).getD st.conductorCount := by
  induction evs with
  | nil => intro st; rfl
  | cons e es ih =>
    intro st
    show (M27500.stateAfter (M27500.scanStep st e).1 es).conductorCount = _
    rw [ih]
    have hL : M27500.latestHeader (e :: es) =
        (M27500.latestHeader es).elim
          (match e with | .header n => some n | _ => none) some :=
      m27500_header_foldl es _
    rw [hL]
    cases e <;> cases M27500.latestHeader es <;> rfl

lemma m27500_stateAfter_codes (evs : List M27500.MatchEvent) :
    ∀ st, (M27500.stateAfter st evs).typeCodes =
      (M27500.latestContext evs).elim st.typeCodes M27500.parseTypeCodes := by
  induction evs with
  | nil => intro st; rfl
  | cons e es ih =>
    intro st
    show (M27500.stateAfter (M27500.scanStep st e).1 es).typeCodes = _
    rw [ih]
    have hL : M27500.latestContext (e :: es) =
        (M27500.latestContext es).elim
          (match e with | .context s => some s | _ => none) some :=
      m27500_context_foldl es _
    rw [hL]
    cases e <;> cases M27500.latestContext es <;> rfl

lemma m27500_no_context_latest (evs : List M27500.MatchEvent)
    (h : evs.all (fun e => !M27500.isContextEv e) = true) :
    M27500.latestContext evs = none := by
  induction evs with
  | nil => rfl
  | cons e es ih =>
    rw [List.all_cons, Bool.and_eq_true] at h
    cases e with
    | context s => simp [M27500.isContextEv] at h
    | header n =>
      have hL : M27500.latestContext (.header n :: es) =
          (M27500.latestContext es).elim none some :=
        m27500_context_foldl es _
      rw [hL, ih h.2]
      rfl
    | dataRow d =>
      have hL : M27500.latestContext (.dataRow d :: es) =
          (M27500.latestContext es).elim none some :=
        m27500_context_foldl es _
      rw [hL, ih h.2]
      rfl

lemma m27500_no_header_latest (evs : List M27500.MatchEvent)
    (h : evs.all (fun e => !M27500.isHeaderEv e) = true) :
    M27500.latestHeader evs = none := by
  induction evs with
  | nil => rfl
  | cons e es ih =>
    rw [List.all_cons, Bool.and_eq_true] at h
    cases e with
    | header n => simp [M27500.isHeaderEv] at h
    | context s =>
      have hL : M27500.latestHeader (.context s :: es) =
          (M27500.latestHeader es).elim none some :=
        m27500_header_foldl es _
      rw [hL, ih h.2]
      rfl
    | dataRow d =>
      have hL : M27500.latestHeader (.dataRow d :: es) =
          (M27500.latestHeader es).elim none some :=
        m27500_header_foldl es _
      rw [hL, ih h.2]
      rfl

lemma m27500_dataRow_emission (st : M27500.ScanState)
    (d : M27500.M27500RowData) :
    M27500.scanFrom st [.dataRow d] =
      if st.conductorCount > 0 && !st.typeCodes.isEmpty then
        st.typeCodes.map
          (fun tc => M27500.normalize_m27500_properties d st.conductorCount tc)
      else [] := by
  show (M27500.scanStep st (.dataRow d)).2 ++ [] = _
  rw [List.append_nil]
  rfl

/-- Claim C8 (amended): in the M27500 stateful scan, a data row matched
before a type-code context declaration or before a conductor-count section
header produces no output; a data row matched when the most recently seen
conductor count `n` is positive produces exactly one normalized row per
type code of the most recently seen context declaration (in order), each
carrying that conductor count.  (As stated the claim fails when the most
recent section header declares a zero conductor count — see the
counterexample.) -/
theorem c8_m27500_scan_threading (evs : List M27500.MatchEvent)
    (d : M27500.M27500RowData) :
    ((evs.all (fun e => !M27500.isContextEv e) = true ∨
      evs.all (fun e => !M27500.isHeaderEv e) = true) →
      M27500.extract_datasheet_info_27500 (evs ++ [.dataRow d]) =
        M27500.extract_datasheet_info_27500 evs) ∧
    (∀ s n, M27500.latestContext evs = some s →
      M27500.latestHeader evs = some n → 0 < n →
      M27500.extract_datasheet_info_27500 (evs ++ [.dataRow d]) =
        M27500.extract_datasheet_info_27500 evs ++
          (M27500.parseTypeCodes s).map
            (fun tc => M27500.normalize_m27500_properties d n tc) ∧
      ∀ row ∈ (M27500.parseTypeCodes s).map
          (fun tc => M27500.normalize_m27500_properties d n tc),
        row.conductorCount = n) := by
  have happ : M27500.extract_datasheet_info_27500 (evs ++ [.dataRow d]) =
      M27500.extract_datasheet_info_27500 evs ++
        M27500.scanFrom (M27500.stateAfter ⟨0, []⟩ evs) [.dataRow d] :=
    m27500_scanFrom_append evs [.dataRow d] ⟨0, []⟩
  constructor
  · rintro (hc | hh)
    · have hcodes : (M27500.stateAfter ⟨0, []⟩ evs).typeCodes = [] := by
        rw [m27500_stateAfter_codes, m27500_no_context_latest evs hc]
        rfl
      rw [happ, m27500_dataRow_emission, hcodes]
      simp
    · have hcount : (M27500.stateAfter ⟨0, []⟩ evs).conductorCount = 0 := by
        rw [m27500_stateAfter_count, m27500_no_header_latest evs hh]
        rfl
      rw [happ, m27500_dataRow_emission, hcount]
      simp
  · intro s n hs hn hpos
    have hcodes : (M27500.stateAfter ⟨0, []⟩ evs).typeCodes =
        M27500.parseTypeCodes s := by
      rw [m27500_stateAfter_codes, hs]
      rfl
    have hcount : (M27500.stateAfter ⟨0, []⟩ evs).conductorCount = n := by
      rw [m27500_stateAfter_count, hn]
      rfl
    constructor
    · rw [happ, m27500_dataRow_emission, hcodes, hcount]
      cases hpc : M27500.parseTypeCodes s with
      | nil => simp
      | cons c cs => simp [hpos]
    · intro row hrow
      obtain ⟨tc, _, he⟩ := List.mem_map.mp hrow
      rw [← he]
      rfl

/-- Witness for C8: before any context the scan discards a data row; with
context `SA and TA` and a 2-conductor header, a data row yields one row per
type code, each with conductor count 2. -/
theorem c8_m27500_scan_threading_witness :
    (M27500.extract_datasheet_info_27500
      [.header 3, .dataRow exData27500] =
        M27500.extract_datasheet_info_27500 [.header 3]) ∧
    (M27500.extract_datasheet_info_27500
      [.context "SA and TA", .header 2, .dataRow exData27500] =
        M27500.extract_datasheet_info_27500 [.context "SA and TA", .header 2] ++
          (M27500.parseTypeCodes "SA and TA").map
            (fun tc =>
              M27500.normalize_m27500_properties exData27500 2 tc) ∧
      ∀ row ∈ (M27500.parseTypeCodes "SA and TA").map
          (fun tc => M27500.normalize_m27500_properties exData27500 2 tc),
        row.conductorCount = 2) :=
  ⟨(c8_m27500_scan_threading [.header 3] exData27500).1 (Or.inl (by decide)),
    (c8_m27500_scan_threading [.context "SA and TA", .header 2]
      exData27500).2 "SA and TA" 2 (by decide) (by decide) (by decide)⟩

/-- Counterexample to C8 as stated: after a context declaring two type codes
and a section header whose conductor count is 0, both a context and a header
have been seen, yet a data row produces no output rows (the code requires a
positive current count), not one per active type code. -/
theorem c8_m27500_scan_counterexample :
    M27500.latestContext [.context "SA and TA", .header 0] = some "SA and TA" ∧
    M27500.latestHeader [.context "SA and TA", .header 0] = some 0 ∧
    M27500.parseTypeCodes "SA and TA" = ["SA", "TA"] ∧
    M27500.extract_datasheet_info_27500
      [.context "SA and TA", .header 0, .dataRow exData27500] = [] ∧
    (0 : Nat) ≠ 2 :=
  ⟨by decide, by decide, by decide, by decide, by decide⟩

/-- Claim C9: an M27500 type code absent from the default-code table yields
the fallback shield code `"U"` and jacket code `"00"`, and every record
assembled from a row normalized with such a code has `HasShield = false`
and `ShieldType = 0`; the lookup and both downstream functions are total,
so an unknown code is never fatal. -/
theorem c9_m27500_unknown_type_code (tc : String)
    (h : M27500.M27500_TYPE_CODE_DEFAULTS.lookup tc = none) :
    M27500.get_default_codes_by_type tc = ("U", "00") ∧
    ∀ (d : M27500.M27500RowData) (n : Nat),
      (M27500.normalize_m27500_properties d n tc).shieldMaterialCode = "U" ∧
      (M27500.normalize_m27500_properties d n tc).jacketMaterialCode = "00" ∧
      (M27500.transformRow27500
        (M27500.normalize_m27500_properties d n tc)).hasShield = false ∧
      (M27500.transformRow27500
        (M27500.normalize_m27500_properties d n tc)).shieldType = 0 := by
  have hd : M27500.get_default_codes_by_type tc = ("U", "00") := by
    unfold M27500.get_default_codes_by_type
    rw [h]
    rfl
  refine ⟨hd, fun d n => ?_⟩
  have h1 : (M27500.normalize_m27500_properties d n tc).shieldMaterialCode =
      (M27500.get_default_codes_by_type tc).1 := rfl
  have h2 : (M27500.normalize_m27500_properties d n tc).jacketMaterialCode =
      (M27500.get_default_codes_by_type tc).2 := rfl
  have h1' : (M27500.normalize_m27500_properties d n tc).shieldMaterialCode =
      "U" := by rw [h1, hd]
  have h2' : (M27500.normalize_m27500_properties d n tc).jacketMaterialCode =
      "00" := by rw [h2, hd]
  refine ⟨h1', h2', ?_, ?_⟩
  · show (!((M27500.normalize_m27500_properties d n tc).shieldMaterialCode
        == "U" ||
      (M27500.normalize_m27500_properties d n tc).shieldMaterialCode == "u"))
        = false
    rw [h1']
    rfl
  · show (if (!((M27500.normalize_m27500_properties d n tc).shieldMaterialCode
          == "U" ||
        (M27500.normalize_m27500_properties d n tc).shieldMaterialCode == "u"))
          = true then 1 else 0) = 0
    rw [h1']
    rfl

/-- Witness for C9 at the unknown type code `"ZZ"`. -/
theorem c9_m27500_unknown_type_code_witness :
    M27500.get_default_codes_by_type "ZZ" = ("U", "00") ∧
    (M27500.normalize_m27500_properties exData27500 2 "ZZ").shieldMaterialCode
      = "U" ∧
    (M27500.transformRow27500
      (M27500.normalize_m27500_properties exData27500 2 "ZZ")).hasShield
      = false :=
  ⟨(c9_m27500_unknown_type_code "ZZ" (by decide)).1,
    ((c9_m27500_unknown_type_code "ZZ" (by decide)).2 exData27500 2).1,
    ((c9_m27500_unknown_type_code "ZZ" (by decide)).2 exData27500 2).2.2.1⟩

lemma merge_jmem_str (s : String) (ids : List String) :
    Merge.jmem (.str s) (ids.map .str) = Merge.strMem s ids := by
  induction ids with
  | nil => rfl
  | cons y ys ih =>
    unfold Merge.jmem Merge.strMem at *
    simp only [List.map_cons, List.any_cons, ih]
    rfl

lemma merge_jvalBEq_truthy : ∀ a b : Merge.JVal,
    Merge.jvalBEq a b = true → Merge.jTruthyV a = Merge.jTruthyV b := by
  intro a b h
  cases a <;> cases b <;> try exact Bool.noConfusion (h : false = true)
  case str.str x y =>
    have hx : x = y := eq_of_beq (by simpa [Merge.jvalBEq] using h)
    rw [hx]
  case num.num x y =>
    have hx : x = y := eq_of_beq (by simpa [Merge.jvalBEq] using h)
    rw [hx]
  case boolean.boolean x y =>
    have hx : x = y := eq_of_beq (by simpa [Merge.jvalBEq] using h)
    rw [hx]
  case null.null => rfl
  case arr.arr x y =>
    cases x <;> cases y <;>
      first
        | rfl
        | exact Bool.noConfusion (h : false = true)
  case obj.obj x y =>
    cases x <;> cases y <;>
      first
        | rfl
        | exact Bool.noConfusion (h : false = true)

lemma merge_jmem_falsy {v : Merge.JVal} {ids : List Merge.JVal}
    (hv : Merge.jTruthyV v = false)
    (hids : ∀ u ∈ ids, Merge.jTruthyV u = true) :
    Merge.jmem v ids = false := by
  unfold Merge.jmem
  rw [List.any_eq_false]
  intro u hu
  intro hbe
  have := merge_jvalBEq_truthy v u hbe
  rw [hv, hids u hu] at this
  exact Bool.noConfusion this

lemma merge_step_inv {st : Merge.MState} {e : Merge.Entry}
    (h : ∀ u ∈ st.ids, Merge.jTruthyV u = true) :
    ∀ u ∈ (Merge.mergeStep st e).ids, Merge.jTruthyV u = true := by
  cases hl : List.lookup "CableId" e with
  | none => simp only [Merge.mergeStep, hl]; exact h
  | some v =>
    simp only [Merge.mergeStep, hl]
    by_cases ht : (Merge.jTruthyV v && !Merge.jmem v st.ids) = true
    · rw [if_pos ht]
      intro u hu
      rcases List.mem_append.mp hu with h1 | h1
      · exact h u h1
      · rw [List.mem_singleton.mp h1]
        exact ((Bool.and_eq_true _ _).mp ht).1
    · rw [if_neg ht]
      split <;> exact h

lemma merge_entries_inv {st : Merge.MState} (l : List Merge.Entry)
    (h : ∀ u ∈ st.ids, Merge.jTruthyV u = true) :
    ∀ u ∈ (Merge.mergeEntries st l).ids, Merge.jTruthyV u = true := by
  induction l generalizing st with
  | nil => exact h
  | cons e es ih =>
    show ∀ u ∈ (Merge.mergeEntries (Merge.mergeStep st e) es).ids, _
    exact ih (merge_step_inv h)

lemma merge_step_falsy {st : Merge.MState} {e : Merge.Entry}
    (hinv : ∀ u ∈ st.ids, Merge.jTruthyV u = true)
    (he : Merge.jTruthyV ((List.lookup "CableId" e).getD .null) = false) :
    Merge.mergeStep st e = st := by
  cases hl : List.lookup "CableId" e with
  | none => simp only [Merge.mergeStep, hl]
  | some v =>
    rw [hl] at he
    simp only [Option.getD_some] at he
    have hm : Merge.jmem v st.ids = false := merge_jmem_falsy he hinv
    simp [Merge.mergeStep, hl, he, hm]

/-- Claim C10: the library merger silently drops every record whose
`CableId` is absent or falsy — merging with such a record inserted anywhere
yields exactly the same accumulator (same merged records, same id set, and
same reported duplicates: the record is not counted as a duplicate) as
merging without it. -/
theorem c10_merge_falsy_id (pre post : List Merge.Entry) (e : Merge.Entry)
    (he : Merge.jTruthyV ((List.lookup "CableId" e).getD .null) = false) :
    Merge.mergeEntries Merge.initState (pre ++ e :: post) =
      Merge.mergeEntries Merge.initState (pre ++ post) := by
  unfold Merge.mergeEntries
  rw [List.foldl_append, List.foldl_append, List.foldl_cons]
  have hinv : ∀ u ∈ (Merge.mergeEntries Merge.initState pre).ids,
      Merge.jTruthyV u = true := by
    apply merge_entries_inv
    intro u hu
    exact absurd hu (List.not_mem_nil u)
  have hstep : Merge.mergeStep (Merge.mergeEntries Merge.initState pre) e =
      Merge.mergeEntries Merge.initState pre :=
    merge_step_falsy hinv he
  unfold Merge.mergeEntries at hstep
  rw [hstep]

/-- Witness for C10: a record with no `CableId` key, inserted between two
good records, changes nothing. -/
theorem c10_merge_falsy_id_witness :
    Merge.mergeEntries Merge.initState
      [[("CableId", .str "a")], [("PartNumber", .str "p")],
        [("CableId", .str "b")]] =
      Merge.mergeEntries Merge.initState
        [[("CableId", .str "a")], [("CableId", .str "b")]] :=
  c10_merge_falsy_id [[("CableId", .str "a")]] [[("CableId", .str "b")]]
    [("PartNumber", .str "p")] rfl

lemma merge_strMem_append (x : String) (l1 l2 : List String) :
    Merge.strMem x (l1 ++ l2) = (Merge.strMem x l1 || Merge.strMem x l2) := by
  unfold Merge.strMem
  exact List.any_append

lemma merge_strMem_singleton (x s : String) :
    Merge.strMem x [s] = (x == s) := by
  unfold Merge.strMem
  simp

lemma merge_goodE_elim {e : Merge.Entry} (hge : Merge.goodE e = true) :
    ∃ s, List.lookup "CableId" e = some (.str s) ∧ (s == "") = false := by
  unfold Merge.goodE at hge
  cases hlk : List.lookup "CableId" e with
  | none => rw [hlk] at hge; exact Bool.noConfusion hge
  | some v =>
    rw [hlk] at hge
    cases v with
    | str s => exact ⟨s, rfl, by simpa using hge⟩
    | num q => exact Bool.noConfusion hge
    | boolean b => exact Bool.noConfusion hge
    | arr l => exact Bool.noConfusion hge
    | obj l => exact Bool.noConfusion hge
    | null => exact Bool.noConfusion hge

lemma merge_step_good (cs : List Merge.Entry) (ids : List String)
    (ds : List Merge.JVal) {e : Merge.Entry} {s : String}
    (hl : List.lookup "CableId" e = some (.str s)) (hs : (s == "") = false) :
    Merge.mergeStep ⟨cs, ids.map .str, ds⟩ e =
      if Merge.strMem s ids then ⟨cs, ids.map .str, ds ++ [.str s]⟩
      else ⟨cs ++ [Merge.filter_cable_entry e], (ids ++ [s]).map .str, ds⟩ := by
  have htr : Merge.jTruthyV (.str s) = true := by
    show (!(s == "")) = true
    rw [hs]
    rfl
  have hjm : Merge.jmem (.str s) (ids.map .str) = Merge.strMem s ids :=
    merge_jmem_str s ids
  by_cases hmem : Merge.strMem s ids = true
  · rw [if_pos hmem]
    simp only [Merge.mergeStep, hl, htr, hjm, hmem]
    rfl
  · rw [if_neg hmem]
    have hmem' : Merge.strMem s ids = false := by
      cases hx : Merge.strMem s ids
      · rfl
      · exact absurd hx hmem
    simp only [Merge.mergeStep, hl, htr, hjm, hmem']
    simp [List.map_append]

lemma merge_entries_good (xs : List Merge.Entry) :
    ∀ (cs : List Merge.Entry) (ids : List String) (ds : List Merge.JVal),
      (∀ e ∈ xs, Merge.goodE e = true) →
      (xs.map Merge.idOfD).Nodup →
      Merge.mergeEntries ⟨cs, ids.map .str, ds⟩ xs =
        ⟨cs ++ (xs.filter
            (fun e => !Merge.strMem (Merge.idOfD e) ids)).map
              Merge.filter_cable_entry,
          (ids ++ (xs.filter
            (fun e => !Merge.strMem (Merge.idOfD e) ids)).map
              Merge.idOfD).map .str,
          ds ++ (xs.filter
            (fun e => Merge.strMem (Merge.idOfD e) ids)).map
              (fun e => Merge.JVal.str (Merge.idOfD e))⟩ := by
  induction xs with
  | nil => intro cs ids ds _ _; simp [Merge.mergeEntries]
  | cons e es ih =>
    intro cs ids ds hg hnd
    obtain ⟨s, hl, hs⟩ := merge_goodE_elim (hg e (List.mem_cons_self _ _))
    have hid : Merge.idOfD e = s := by
      unfold Merge.idOfD
      rw [hl]
    have hgt : ∀ e' ∈ es, Merge.goodE e' = true := fun e' he' =>
      hg e' (List.mem_cons_of_mem _ he')
    rw [List.map_cons, List.nodup_cons] at hnd
    have hstep := merge_step_good cs ids ds hl hs
    show Merge.mergeEntries (Merge.mergeStep ⟨cs, ids.map .str, ds⟩ e) es = _
    by_cases hmem : Merge.strMem s ids = true
    · rw [hstep, if_pos hmem, ih cs ids (ds ++ [Merge.JVal.str s]) hgt hnd.2]
      have hfe : (List.filter (fun e' =>
          !Merge.strMem (Merge.idOfD e') ids) (e :: es)) =
          List.filter (fun e' => !Merge.strMem (Merge.idOfD e') ids) es := by
        rw [List.filter_cons]
        simp [hid, hmem]
      have hfd : (List.filter (fun e' =>
          Merge.strMem (Merge.idOfD e') ids) (e :: es)) =
          e :: List.filter (fun e' => Merge.strMem (Merge.idOfD e') ids) es := by
        rw [List.filter_cons]
        simp [hid, hmem]
      rw [hfe, hfd]
      simp [hid, List.append_assoc]
    · have hmem' : Merge.strMem s ids = false := by
        cases hx : Merge.strMem s ids
        · rfl
        · exact absurd hx hmem
      rw [hstep, if_neg hmem,
        ih (cs ++ [Merge.filter_cable_entry e]) (ids ++ [s]) ds hgt hnd.2]
      have hcong : ∀ e' ∈ es,
          Merge.strMem (Merge.idOfD e') (ids ++ [s]) =
            Merge.strMem (Merge.idOfD e') ids := by
        intro e' he'
        rw [merge_strMem_append, merge_strMem_singleton]
        have hne : Merge.idOfD e' ≠ s := by
          intro hEq
          apply hnd.1
          rw [hid, ← hEq]
          exact List.mem_map_of_mem Merge.idOfD he'
        rw [beq_eq_false_iff_ne.mpr hne]
        simp
      have hfe : List.filter (fun e' =>
          !Merge.strMem (Merge.idOfD e') (ids ++ [s])) es =
          List.filter (fun e' => !Merge.strMem (Merge.idOfD e') ids) es := by
        apply List.filter_congr
        intro e' he'
        rw [hcong e' he']
      have hfd : List.filter (fun e' =>
          Merge.strMem (Merge.idOfD e') (ids ++ [s])) es =
          List.filter (fun e' => Merge.strMem (Merge.idOfD e') ids) es := by
        apply List.filter_congr
        intro e' he'
        rw [hcong e' he']
      have hfe2 : (List.filter (fun e' =>
          !Merge.strMem (Merge.idOfD e') ids) (e :: es)) =
          e :: List.filter (fun e' => !Merge.strMem (Merge.idOfD e') ids) es := by
        rw [List.filter_cons]
        simp [hid, hmem']
      have hfd2 : (List.filter (fun e' =>
          Merge.strMem (Merge.idOfD e') ids) (e :: es)) =
          List.filter (fun e' => Merge.strMem (Merge.idOfD e') ids) es := by
        rw [List.filter_cons]
        simp [hid, hmem']
      rw [hfe, hfd, hfe2, hfd2]
      simp [hid, List.append_assoc]

lemma merge_length_filter_add {α : Type} (l : List α) (p : α → Bool) :
    (l.filter p).length + (l.filter (fun x => !p x)).length = l.length := by
  induction l with
  | nil => rfl
  | cons a l ih =>
    rw [List.filter_cons, List.filter_cons]
    cases hp : p a <;> simp [hp] <;> omega

/-- Claim C7 (amended): merging two record lists in order, where every
record carries a non-empty string `CableId` and identifiers are unique
within each list, yields `len(A) + len(B) − overlapCount` records, where
the overlap is the set of identifiers appearing in both lists; the merged
list is the (allow-list-filtered) records of the first list followed by the
non-overlapping records of the second — so for each overlapping identifier
the surviving record is the one from the first-processed list, and later
duplicates are dropped whole, never merged field by field.  (As stated —
over arbitrary lists — the claim fails for lists with internal duplicates
or falsy identifiers; see the counterexample.) -/
theorem c7_merge_first_wins (A B : List Merge.Entry)
    (hA : ∀ e ∈ A, Merge.goodE e = true) (hB : ∀ e ∈ B, Merge.goodE e = true)
    (hAnd : (A.map Merge.idOfD).Nodup) (hBnd : (B.map Merge.idOfD).Nodup) :
    (Merge.merge_json_files [A, B]).cables.length =
      A.length + B.length -
        (B.filter (fun e =>
          Merge.strMem (Merge.idOfD e) (A.map Merge.idOfD))).length ∧
    (Merge.merge_json_files [A, B]).cables =
      A.map Merge.filter_cable_entry ++
        (B.filter (fun e =>
          !Merge.strMem (Merge.idOfD e) (A.map Merge.idOfD))).map
            Merge.filter_cable_entry := by
  have h0 : Merge.merge_json_files [A, B] =
      Merge.mergeEntries (Merge.mergeEntries Merge.initState A) B := rfl
  have hA1 : Merge.mergeEntries Merge.initState A =
      ⟨A.map Merge.filter_cable_entry, (A.map Merge.idOfD).map .str, []⟩ := by
    have h := merge_entries_good A [] [] [] hA hAnd
    rw [show Merge.initState =
      (⟨[], ([] : List String).map .str, []⟩ : Merge.MState) from rfl, h]
    have hall : A.filter (fun e => !Merge.strMem (Merge.idOfD e) []) = A := by
      apply List.filter_eq_self.mpr
      intro e _
      rfl
    have hnone : A.filter (fun e => Merge.strMem (Merge.idOfD e) []) = [] := by
      apply List.filter_eq_nil_iff.mpr
      intro e _
      simp [Merge.strMem]
    rw [hall, hnone]
    rfl
  have h2 := merge_entries_good B (A.map Merge.filter_cable_entry)
    (A.map Merge.idOfD) [] hB hBnd
  have hmain : (Merge.merge_json_files [A, B]).cables =
      A.map Merge.filter_cable_entry ++
        (B.filter (fun e =>
          !Merge.strMem (Merge.idOfD e) (A.map Merge.idOfD))).map
            Merge.filter_cable_entry := by
    rw [h0, hA1, h2]
  refine ⟨?_, hmain⟩
  rw [hmain]
  rw [List.length_append, List.length_map, List.length_map]
  have hsum := merge_length_filter_add B
    (fun e => Merge.strMem (Merge.idOfD e) (A.map Merge.idOfD))
  omega

/-- Witness for C7: two two-record lists sharing the identifier `b`; the
merge has 3 records and keeps the first list's `b` record. -/
theorem c7_merge_first_wins_witness :
    (Merge.merge_json_files
      [[[("CableId", .str "a")],
        [("CableId", .str "b"), ("Name", .str "first")]],
       [[("CableId", .str "b"), ("Name", .str "second")],
        [("CableId", .str "c")]]]).cables.length = 2 + 2 - 1 ∧
    (Merge.merge_json_files
      [[[("CableId", .str "a")],
        [("CableId", .str "b"), ("Name", .str "first")]],
       [[("CableId", .str "b"), ("Name", .str "second")],
        [("CableId", .str "c")]]]).cables =
      [[("CableId", .str "a")],
        [("CableId", .str "b"), ("Name", .str "first")]].map
          Merge.filter_cable_entry ++
        [[("CableId", .str "c")]].map Merge.filter_cable_entry := by
  have h := c7_merge_first_wins
    [[("CableId", .str "a")], [("CableId", .str "b"), ("Name", .str "first")]]
    [[("CableId", .str "b"), ("Name", .str "second")],
      [("CableId", .str "c")]]
    (by decide) (by decide) (by decide) (by decide)
  refine ⟨h.1.trans (by decide), h.2.trans ?_⟩
  rfl

/-- Counterexample to C7 as stated: a list containing the same identifier
twice (overlap with the second list being empty) merges to 1 record, not
`2 + 0 − 0 = 2` — within-list duplicates are also dropped; likewise a
single record with an empty (falsy) identifier merges to 0 records, not 1. -/
theorem c7_merge_count_counterexample :
    (Merge.merge_json_files
      [[[("CableId", .str "x")], [("CableId", .str "x")]],
        []]).cables.length = 1 ∧ (1 : Nat) ≠ 2 + 0 - 0 ∧
    (Merge.merge_json_files
      [[[("CableId", .str "")]], []]).cables.length = 0 ∧ (0 : Nat) ≠ 1 :=
  ⟨by decide, by decide, by decide, by decide⟩
